import Mathlib

/-!
Verification development for a GraphQL blog backend.

The source consists of an Express entrypoint (`app.js`) and the GraphQL
resolver module (`graphql/resolvers.js`).  The resolvers implement
`createUser`, `login`, `createPost`, `posts`, `post`, `updatePost`,
`deletePost`, `user` and `updateStatus` against a document store holding
`User` and `Post` records.

Embedding conventions:
* The document store is a `DB` value threaded explicitly through each
  resolver.  Mongoose queries (`findOne`, `findById`, `save`,
  `findByIdAndRemove`, `countDocuments`, `sort`/`skip`/`limit`) become
  list operations on `DB`.
* A thrown JS error is an `Err` value.  Each resolver body that the
  source wraps in `try { ... } catch (err) { console.log(err); }` is
  embedded as a separate `...Try` function returning
  `Except (Err × DB) (result × DB)` (the `DB` in the error case is the
  state at the moment of the throw); the resolver proper turns a caught
  error into the JS `undefined` result, embedded as `none`, keeping the
  state reached inside the `try`.  Code before the `try` (the auth gate,
  and input validation in `createUser`/`createPost`) throws to the
  caller, embedded as `Except.error`.
* External libraries (`bcryptjs`, `jsonwebtoken`, `validator`) are not
  part of the repository; they are modelled by executable stand-ins that
  keep the properties the resolvers rely on (a password matches exactly
  its own hash; a token is a function of user id and email; `isEmpty`
  is equality with the empty string and `isLength {min}` is a length
  bound).
-/

/-- A thrown JS `Error`, with the optional `code` and `data` fields the
resolvers attach (`error.code = 422`, `error.data = errors`).  `data`
holds the list of field-error messages. -/
structure Err where
  message : String
  code : Option Nat := none
  data : Option (List String) := none
  deriving DecidableEq

/-- Stored user document (`models/user`): email, display name, hashed
password, free-text status, list of owned post ids.  The model file is
not part of the resolver sources; the fields are the ones the resolvers
read and write. -/
structure User where
  _id : Nat
  email : String
  name : String
  password : String
  status : String
  posts : List Nat
  deriving DecidableEq

/-- Stored post document (`models/post`): title, content, image path,
creator user id, and the server-assigned timestamps. -/
structure Post where
  _id : Nat
  title : String
  content : String
  imageUrl : String
  creator : Nat
  createdAt : Nat
  updatedAt : Nat
  deriving DecidableEq

/-- The document store: user and post collections, a fresh-id counter
for newly inserted documents, and a clock supplying the server-assigned
timestamps. -/
structure DB where
  users : List User
  posts : List Post
  nextId : Nat
  time : Nat
  deriving DecidableEq

/-- The request context the auth middleware prepares: `req.isAuth` and
`req.userId` (decoded from the bearer token). -/
structure Req where
  isAuth : Bool
  userId : Nat
  deriving DecidableEq

/-- Model of `bcrypt.hash(password, 12)`: an injective tagging of the
password. -/
def bcryptHash (password : String) : String :=
  "bcrypt12$" ++ password

/-- Model of `bcrypt.compare(password, hashed)`: true exactly when
`hashed` is the hash of `password`. -/
def bcryptCompare (password hashed : String) : Bool :=
  bcryptHash password == hashed

/-- Model of `jwt.sign({userId, email}, secret, {expiresIn})`: the token
is a function of the user id and email. -/
def jwtSign (userId : Nat) (email : String) : String :=
  "jwt." ++ toString userId ++ "." ++ email

/-- Splits a character list at the first `@`: the part before it and,
when an `@` occurs, the remainder after it. -/
def splitAtSign : List Char → List Char × Option (List Char)
  | [] => ([], none)
  | c :: cs =>
      if c == '@' then ([], some cs)
      else
        let r := splitAtSign cs
        (c :: r.1, r.2)

/-- Model of `validator.isEmail` (external library, simplified): exactly
one `@`, separating a nonempty local part from a nonempty domain that
contains a dot. -/
def isEmail (s : String) : Bool :=
  match splitAtSign s.toList with
  | (localPart, some domain) =>
      !localPart.isEmpty && !domain.isEmpty &&
        !domain.contains '@' && domain.contains '.'
  | (_, none) => false

/-- `validator.isEmpty(s)`: equality with the empty string. -/
def isEmpty (s : String) : Bool :=
  s == ""

/-- `validator.isLength(s, {min})`: the length is at least `min`. -/
def isLengthMin (s : String) (min : Nat) : Bool :=
  decide (min ≤ s.length)

/-- `User.findOne({email})`. -/
def DB.findUserByEmail (db : DB) (email : String) : Option User :=
  db.users.find? (fun u => u.email == email)

/-- `User.findById(id)`. -/
def DB.findUserById (db : DB) (id : Nat) : Option User :=
  db.users.find? (fun u => u._id == id)

/-- `Post.findById(id)`. -/
def DB.findPostById (db : DB) (id : Nat) : Option Post :=
  db.posts.find? (fun p => p._id == id)

/-- `user.save()` on an existing document: replace the stored user with
the same id. -/
def DB.saveUser (db : DB) (u : User) : DB :=
  { db with users := db.users.map (fun v => if v._id == u._id then u else v) }

/-- `post.save()` on an existing document: replace the stored post with
the same id. -/
def DB.savePost (db : DB) (p : Post) : DB :=
  { db with posts := db.posts.map (fun q => if q._id == p._id then p else q) }

/-- `new User(...).save()`: append the document and advance the id
counter and clock. -/
def DB.insertUser (db : DB) (u : User) : DB :=
  { db with users := db.users ++ [u], nextId := db.nextId + 1, time := db.time + 1 }

/-- `new Post(...).save()`: append the document and advance the id
counter and clock. -/
def DB.insertPost (db : DB) (p : Post) : DB :=
  { db with posts := db.posts ++ [p], nextId := db.nextId + 1, time := db.time + 1 }

/-- `Post.findByIdAndRemove(id)`. -/
def DB.removePost (db : DB) (id : Nat) : DB :=
  { db with posts := db.posts.filter (fun p => p._id != id) }

/-- Signup input (`args.userInput`). -/
structure UserInput where
  email : String
  name : String
  password : String
  deriving DecidableEq

/-- Post input (`args.postInput`). -/
structure PostInput where
  title : String
  content : String
  imageUrl : String
  deriving DecidableEq

/-- Result of `login`: `{token, userId}`. -/
structure LoginResult where
  token : String
  userId : Nat
  deriving DecidableEq

/-- Result of `posts`: `{posts, totalPosts}`. -/
structure PostsResult where
  posts : List Post
  totalPosts : Nat
  deriving DecidableEq

/-- The `Not authenticated!` error each auth-gated resolver throws with
code 401. -/
def notAuthenticatedErr : Err :=
  { message := "Not authenticated!", code := some 401 }

/-- The field-error messages `createUser` accumulates: email format and
password length (empty or shorter than 5). -/
def createUserErrors (input : UserInput) : List String :=
  (if !isEmail input.email then ["Invalid email."] else []) ++
    (if isEmpty input.password || !isLengthMin input.password 5 then
      ["Password too short."] else [])

/-- Body of the `try` block of `createUser`: uniqueness check, hashing,
insertion.  The thrown `User exists already.` error carries no code. -/
def createUserTry (input : UserInput) (db : DB) :
    Except (Err × DB) (User × DB) :=
  match db.findUserByEmail input.email with
  | some _ => .error ({ message := "User exists already." }, db)
  | none =>
      let hashedPassword := bcryptHash input.password
      let u : User :=
        { _id := db.nextId, email := input.email, name := input.name,
          password := hashedPassword, status := "", posts := [] }
      .ok (u, db.insertUser u)

/-- Resolver `createUser`: validation throws 422 to the caller; the
`try` body's errors are caught and logged, yielding `undefined`
(`none`).  The success value spreads the stored document, password
included. -/
def createUser (input : UserInput) (db : DB) :
    Except Err (Option User) × DB :=
  let errors := createUserErrors input
  if errors.length > 0 then
    (.error { message := "Invalid input.", code := some 422, data := some errors }, db)
  else
    match createUserTry input db with
    | .ok (u, db') => (.ok (some u), db')
    | .error (_, db') => (.ok none, db')

/-- Body of the `try` block of `login`: lookup, password comparison,
token signing.  Both failures throw with code 401. -/
def loginTry (email password : String) (db : DB) : Except Err LoginResult :=
  match db.findUserByEmail email with
  | none => .error { message := "User not found.", code := some 401 }
  | some u =>
      if bcryptCompare password u.password then
        .ok { token := jwtSign u._id u.email, userId := u._id }
      else
        .error { message := "Incorrect password.", code := some 401 }

/-- Resolver `login`: the whole body sits inside the `try`, so every
thrown error is caught and logged and the resolver returns `undefined`.
No state is touched. -/
def login (email password : String) (db : DB) : Option LoginResult :=
  match loginTry email password db with
  | .ok r => some r
  | .error _ => none

/-- The field-error messages `createPost` and `updatePost` accumulate:
title and content each must be nonempty and at least 5 characters. -/
def postInputErrors (input : PostInput) : List String :=
  (if isEmpty input.title || !isLengthMin input.title 5 then
    ["Title is invalid."] else []) ++
    (if isEmpty input.content || !isLengthMin input.content 5 then
      ["Content is invalid."] else [])

/-- Body of the `try` block of `createPost`: creator lookup (401 on
failure), post insertion, and appending the post id to the creator's
list. -/
def createPostTry (input : PostInput) (req : Req) (db : DB) :
    Except (Err × DB) (Post × DB) :=
  match db.findUserById req.userId with
  | none => .error ({ message := "Invalid user.", code := some 401 }, db)
  | some u =>
      let p : Post :=
        { _id := db.nextId, title := input.title, content := input.content,
          imageUrl := input.imageUrl, creator := u._id,
          createdAt := db.time, updatedAt := db.time }
      let db := db.insertPost p
      let db := db.saveUser { u with posts := u.posts ++ [p._id] }
      .ok (p, db)

/-- Resolver `createPost`: auth gate (401) and validation (422) run
before the `try` and throw to the caller; `try`-body errors are caught
and logged (`none`). -/
def createPost (input : PostInput) (req : Req) (db : DB) :
    Except Err (Option Post) × DB :=
  if !req.isAuth then
    (.error notAuthenticatedErr, db)
  else
    let errors := postInputErrors input
    if errors.length > 0 then
      (.error { message := "Invalid input.", code := some 422, data := some errors }, db)
    else
      match createPostTry input req db with
      | .ok (p, db') => (.ok (some p), db')
      | .error (_, db') => (.ok none, db')

/-- Descending creation-time order used by the `posts` query
(`sort({createdAt: -1})`). -/
def createdAtGe (a b : Post) : Prop :=
  b.createdAt ≤ a.createdAt

instance : DecidableRel createdAtGe :=
  fun a b => Nat.decLe b.createdAt a.createdAt

instance : IsTotal Post createdAtGe :=
  ⟨fun a b => Nat.le_total b.createdAt a.createdAt⟩

instance : IsTrans Post createdAtGe :=
  ⟨fun _ _ _ h1 h2 => Nat.le_trans h2 h1⟩

/-- The stored posts sorted newest first. -/
def sortByCreatedAtDesc (l : List Post) : List Post :=
  l.insertionSort createdAtGe

/-- Resolver `posts`: auth gate, falsy page defaulted to 1, fixed
`perPage = 2`, total count, and the sorted/skip/limit page.  The `try`
body performs only reads and cannot throw, so the resolver never
returns a caught-error `undefined`. -/
def posts (page : Nat) (req : Req) (db : DB) :
    Except Err (Option PostsResult) :=
  if !req.isAuth then
    .error notAuthenticatedErr
  else
    let page := if page == 0 then 1 else page
    let perPage := 2
    let totalPosts := db.posts.length
    let pagePosts :=
      ((sortByCreatedAtDesc db.posts).drop ((page - 1) * perPage)).take perPage
    .ok (some { posts := pagePosts, totalPosts := totalPosts })

/-- Body of the `try` block of `post`: lookup by id, 404 when absent. -/
def postTry (id : Nat) (db : DB) : Except Err Post :=
  match db.findPostById id with
  | none => .error { message := "Post not found.", code := some 404 }
  | some p => .ok p

/-- Resolver `post`: auth gate before the `try`; the 404 is caught and
logged (`none`). -/
def post (id : Nat) (req : Req) (db : DB) : Except Err (Option Post) :=
  if !req.isAuth then
    .error notAuthenticatedErr
  else
    match postTry id db with
    | .ok p => .ok (some p)
    | .error _ => .ok none

/-- Body of the `try` block of `updatePost`, in source order: existence
(code 401), ownership (code 403), then input validation (code 422),
then the mutation.  `imageUrl` is assigned only when the supplied
string differs from the literal `"undefined"`. -/
def updatePostTry (id : Nat) (input : PostInput) (req : Req) (db : DB) :
    Except (Err × DB) (Post × DB) :=
  match db.findPostById id with
  | none => .error ({ message := "Post not found.", code := some 401 }, db)
  | some p =>
      if p.creator != req.userId then
        .error ({ message := "Unauthorized.", code := some 403 }, db)
      else
        let errors := postInputErrors input
        if errors.length > 0 then
          .error ({ message := "Invalid input.", code := some 422, data := some errors }, db)
        else
          let p' : Post :=
            { p with
              title := input.title,
              content := input.content,
              imageUrl := (if input.imageUrl != "undefined" then input.imageUrl
                else p.imageUrl),
              updatedAt := db.time }
          .ok (p', db.savePost p')

/-- Resolver `updatePost`: auth gate before the `try`; `try`-body
errors are caught and logged (`none`). -/
def updatePost (id : Nat) (input : PostInput) (req : Req) (db : DB) :
    Except Err (Option Post) × DB :=
  if !req.isAuth then
    (.error notAuthenticatedErr, db)
  else
    match updatePostTry id input req db with
    | .ok (p, db') => (.ok (some p), db')
    | .error (_, db') => (.ok none, db')

/-- Body of the `try` block of `deletePost`, in source order: existence
(code 401), ownership (code 403), image removal (a filesystem effect
outside this state), post removal, and pulling the id from the owner's
list.  If the owner lookup after removal failed, the source would hit a
TypeError on `user.posts.pull`, also caught by the same `catch`. -/
def deletePostTry (id : Nat) (req : Req) (db : DB) :
    Except (Err × DB) (Bool × DB) :=
  match db.findPostById id with
  | none => .error ({ message := "Post not found.", code := some 401 }, db)
  | some p =>
      if p.creator != req.userId then
        .error ({ message := "Unauthorized.", code := some 403 }, db)
      else
        let db := db.removePost id
        match db.findUserById req.userId with
        | none => .error ({ message := "TypeError" }, db)
        | some u =>
            let db := db.saveUser { u with posts := u.posts.filter (fun i => i != id) }
            .ok (true, db)

/-- Resolver `deletePost`: auth gate before the `try`; `try`-body
errors are caught and logged (`none`). -/
def deletePost (id : Nat) (req : Req) (db : DB) :
    Except Err (Option Bool) × DB :=
  if !req.isAuth then
    (.error notAuthenticatedErr, db)
  else
    match deletePostTry id req db with
    | .ok (b, db') => (.ok (some b), db')
    | .error (_, db') => (.ok none, db')

/-- Body of the `try` block of `user`: current-user lookup, 401 when
absent.  The success value spreads the stored document, password
included. -/
def userTry (req : Req) (db : DB) : Except Err User :=
  match db.findUserById req.userId with
  | none => .error { message := "User not found.", code := some 401 }
  | some u => .ok u

/-- Resolver `user`: auth gate before the `try`; the `try`-body error
is caught and logged (`none`). -/
def user (req : Req) (db : DB) : Except Err (Option User) :=
  if !req.isAuth then
    .error notAuthenticatedErr
  else
    match userTry req db with
    | .ok u => .ok (some u)
    | .error _ => .ok none

/-- Body of the `try` block of `updateStatus`: current-user lookup (401
when absent), status assignment, save.  The success value spreads the
stored document, password included. -/
def updateStatusTry (status : String) (req : Req) (db : DB) :
    Except (Err × DB) (User × DB) :=
  match db.findUserById req.userId with
  | none => .error ({ message := "User not found.", code := some 401 }, db)
  | some u =>
      let u' := { u with status := status }
      .ok (u', db.saveUser u')

/-- Resolver `updateStatus`: auth gate before the `try`; `try`-body
errors are caught and logged (`none`). -/
def updateStatus (status : String) (req : Req) (db : DB) :
    Except Err (Option User) × DB :=
  if !req.isAuth then
    (.error notAuthenticatedErr, db)
  else
    match updateStatusTry status req db with
    | .ok (u, db') => (.ok (some u), db')
    | .error (_, db') => (.ok none, db')

/-- A GraphQL-layer error as seen by `formatError` in `app.js`: the
outer message and, when the resolver threw, the wrapped
`originalError`. -/
structure GqlError where
  message : String
  originalError : Option Err
  deriving DecidableEq

/-- Outcome of `formatError`.  When `originalError` is absent the error
is returned unchanged.  Otherwise the source computes `data`, `message`
and `code = err.originalError.code || 500` but then evaluates
`return { message, status, data }`, and `status` is not declared in any
enclosing scope, so the shorthand property raises a JS ReferenceError;
the computed `code` is never used. -/
inductive FormatErrorResult where
  | passthrough (e : GqlError)
  | referenceError
  deriving DecidableEq

/-- `formatError` from the GraphQL endpoint options in `app.js`. -/
def formatError (err : GqlError) : FormatErrorResult :=
  match err.originalError with
  | none => .passthrough err
  | some oe =>
      let _data := oe.data
      let _message := if err.message != "" then err.message else "An error occurred."
      let _code := oe.code.getD 500
      .referenceError

/-- An error reaching the Express catch-all handler in `app.js`; that
handler reads `error.statusCode` (not `error.code`). -/
structure ExpressError where
  statusCode : Option Nat
  message : String
  data : Option (List String)
  deriving DecidableEq

/-- The JSON error response the Express handler renders, together with
the HTTP status it sets. -/
structure ErrorResponse where
  status : Nat
  message : String
  data : Option (List String)
  deriving DecidableEq

/-- The Express catch-all error handler in `app.js`:
`status = error.statusCode || 500`, body `{message, data}`. -/
def errorHandler (e : ExpressError) : ErrorResponse :=
  { status := e.statusCode.getD 500, message := e.message, data := e.data }

/-- Fixture user 1: owner of the fixture post. -/
def alice : User :=
  { _id := 1, email := "a@b.com", name := "Alice",
    password := bcryptHash "secret12", status := "new", posts := [10] }

/-- Fixture user 2: owns no posts. -/
def bob : User :=
  { _id := 2, email := "c@d.com", name := "Bob",
    password := bcryptHash "pw12345", status := "", posts := [] }

/-- Fixture post, created by `alice`. -/
def post10 : Post :=
  { _id := 10, title := "First post", content := "Hello there",
    imageUrl := "old.png", creator := 1, createdAt := 5, updatedAt := 5 }

/-- Fixture store: two users, one post owned by the first. -/
def dbFix : DB :=
  { users := [alice, bob], posts := [post10], nextId := 20, time := 9 }

/-- The post `createPost` stores for a `Hello World` input on `dbFix`. -/
def helloPost : Post :=
  { _id := 20, title := "Hello World", content := "Hello World",
    imageUrl := "x", creator := 1, createdAt := 9, updatedAt := 9 }

/-- The stored state of post 10 after the owner's update in the C9
counterexample: title and content changed, `imageUrl` untouched. -/
def post10updated : Post :=
  { post10 with title := "Hello World", content := "Hello World", updatedAt := 9 }

/-- The title/content check of the resolvers, as a proposition: the
checked string is empty or shorter than 5 characters. -/
lemma lengthCheck_iff (s : String) :
    (isEmpty s || !isLengthMin s 5) = true ↔ s = "" ∨ s.length < 5 := by
  simp [isEmpty, isLengthMin, Nat.not_le]

/-- An empty-or-short title or content makes the accumulated field-error
list of `createPost`/`updatePost` nonempty. -/
lemma postInputErrors_pos {input : PostInput}
    (h : input.title = "" ∨ input.title.length < 5 ∨
      input.content = "" ∨ input.content.length < 5) :
    0 < (postInputErrors input).length := by
  unfold postInputErrors
  rw [List.length_append]
  rcases h with h | h | h | h
  · rw [if_pos ((lengthCheck_iff input.title).2 (Or.inl h))]; simp
  · rw [if_pos ((lengthCheck_iff input.title).2 (Or.inr h))]; simp
  · rw [if_pos ((lengthCheck_iff input.content).2 (Or.inl h))]; simp
  · rw [if_pos ((lengthCheck_iff input.content).2 (Or.inr h))]; simp

/-- C1: with a stored user's email and a password that does not match
the stored hash, `login` internally throws the 401
`Incorrect password.` error, but the surrounding `catch` swallows it:
the call resolves to `undefined` (`none`) — no token is issued, and no
401 rejection reaches the caller. -/
theorem login_wrong_password_swallowed :
    dbFix.findUserByEmail "a@b.com" = some alice ∧
    bcryptCompare "wrong" alice.password = false ∧
    loginTry "a@b.com" "wrong" dbFix =
      .error { message := "Incorrect password.", code := some 401 } ∧
    login "a@b.com" "wrong" dbFix = none :=
  ⟨rfl, rfl, rfl, rfl⟩

/-- C2: signup with an already-stored email internally throws
`User exists already.` (no code attached), but the `catch` swallows it:
the resolver resolves to `undefined` (`none`), no token is issued, and
the store is unchanged — no user record is created. -/
theorem createUser_duplicate_swallowed :
    dbFix.findUserByEmail "a@b.com" = some alice ∧
    createUserTry { email := "a@b.com", name := "Eve", password := "longpass" } dbFix =
      .error ({ message := "User exists already." }, dbFix) ∧
    createUser { email := "a@b.com", name := "Eve", password := "longpass" } dbFix =
      (.ok none, dbFix) :=
  ⟨rfl, rfl, rfl⟩

/-- C3: an authenticated `updatePost`/`deletePost` by a user other than
the post's creator internally throws the 403 `Unauthorized.` error, but
the `catch` swallows it: each resolver resolves to `undefined` (`none`)
and the store — hence the post — is unchanged. -/
theorem nonOwner_update_delete_swallowed :
    post10.creator = 1 ∧
    updatePostTry 10 { title := "Hello World", content := "Hello World", imageUrl := "new.png" }
        { isAuth := true, userId := 2 } dbFix =
      .error ({ message := "Unauthorized.", code := some 403 }, dbFix) ∧
    updatePost 10 { title := "Hello World", content := "Hello World", imageUrl := "new.png" }
        { isAuth := true, userId := 2 } dbFix = (.ok none, dbFix) ∧
    deletePostTry 10 { isAuth := true, userId := 2 } dbFix =
      .error ({ message := "Unauthorized.", code := some 403 }, dbFix) ∧
    deletePost 10 { isAuth := true, userId := 2 } dbFix = (.ok none, dbFix) ∧
    dbFix.findPostById 10 = some post10 :=
  ⟨rfl, rfl, rfl, rfl, rfl, rfl⟩

/-- C4: an authenticated `createPost` whose title or content is empty
or shorter than 5 characters throws the 422 validation error carrying
the accumulated field messages; title `"Hi"` accumulates
`Title is invalid.`, while a `"Hello World"` title and content pass
validation and the post is stored. -/
theorem createPost_validation_422 :
    (∀ (input : PostInput) (req : Req) (db : DB),
        req.isAuth = true →
        (input.title = "" ∨ input.title.length < 5 ∨
          input.content = "" ∨ input.content.length < 5) →
        createPost input req db =
          (.error { message := "Invalid input.", code := some 422,
                    data := some (postInputErrors input) }, db)) ∧
    postInputErrors { title := "Hi", content := "Hello World", imageUrl := "x" } =
      ["Title is invalid."] ∧
    (createPost { title := "Hello World", content := "Hello World", imageUrl := "x" }
        { isAuth := true, userId := 1 } dbFix).1 = .ok (some helloPost) ∧
    (createPost { title := "Hello World", content := "Hello World", imageUrl := "x" }
        { isAuth := true, userId := 1 } dbFix).2.findPostById 20 = some helloPost := by
  refine ⟨?_, rfl, rfl, rfl⟩
  intro input req db hauth hbad
  simp only [createPost, hauth, Bool.not_true, Bool.false_eq_true, if_false]
  rw [if_pos (postInputErrors_pos hbad)]

/-- Witness for C4 at the concrete invalid title `"Hi"`. -/
theorem createPost_validation_422_witness :
    ({ isAuth := true, userId := 1 } : Req).isAuth = true ∧
    createPost { title := "Hi", content := "Hello World", imageUrl := "x" }
        { isAuth := true, userId := 1 } dbFix =
      (.error { message := "Invalid input.", code := some 422,
                data := some ["Title is invalid."] }, dbFix) :=
  ⟨rfl, createPost_validation_422.1 _ _ _ rfl (Or.inr (Or.inl (by decide)))⟩

/-- C5: an authenticated `posts` query returns at most `perPage = 2`
posts, in descending creation-time order, and a `totalPosts` equal to
the count of all stored posts, for every page number. -/
theorem posts_paged_sorted_total (page : Nat) (req : Req) (db : DB)
    (hauth : req.isAuth = true) :
    ∃ r : PostsResult,
      posts page req db = .ok (some r) ∧
      r.posts.length ≤ 2 ∧
      r.posts.Pairwise createdAtGe ∧
      r.totalPosts = db.posts.length := by
  have hs : (sortByCreatedAtDesc db.posts).Pairwise createdAtGe :=
    List.sorted_insertionSort createdAtGe db.posts
  refine ⟨⟨((sortByCreatedAtDesc db.posts).drop
      (((if page == 0 then 1 else page) - 1) * 2)).take 2, db.posts.length⟩,
    ?_, ?_, ?_, rfl⟩
  · simp only [posts, hauth, Bool.not_true, Bool.false_eq_true, if_false]
  · exact List.length_take_le 2 _
  · exact hs.sublist ((List.take_sublist _ _).trans (List.drop_sublist _ _))

/-- Witness for C5 on the fixture store at page 1. -/
theorem posts_paged_sorted_total_witness :
    ({ isAuth := true, userId := 1 } : Req).isAuth = true ∧
    ∃ r : PostsResult,
      posts 1 { isAuth := true, userId := 1 } dbFix = .ok (some r) ∧
      r.posts.length ≤ 2 ∧
      r.posts.Pairwise createdAtGe ∧
      r.totalPosts = dbFix.posts.length :=
  ⟨rfl, posts_paged_sorted_total 1 { isAuth := true, userId := 1 } dbFix rfl⟩

/-- C6: each auth-gated resolver (`createPost`, `posts`, `post`,
`updatePost`, `deletePost`, `user`, `updateStatus`) called without the
authenticated flag throws the 401 `Not authenticated!` error before any
validation or store access, for all arguments, and the store is
unchanged. -/
theorem auth_gate_rejects_first :
    (∀ (input : PostInput) (req : Req) (db : DB), req.isAuth = false →
        createPost input req db = (.error notAuthenticatedErr, db)) ∧
    (∀ (page : Nat) (req : Req) (db : DB), req.isAuth = false →
        posts page req db = .error notAuthenticatedErr) ∧
    (∀ (id : Nat) (req : Req) (db : DB), req.isAuth = false →
        post id req db = .error notAuthenticatedErr) ∧
    (∀ (id : Nat) (input : PostInput) (req : Req) (db : DB), req.isAuth = false →
        updatePost id input req db = (.error notAuthenticatedErr, db)) ∧
    (∀ (id : Nat) (req : Req) (db : DB), req.isAuth = false →
        deletePost id req db = (.error notAuthenticatedErr, db)) ∧
    (∀ (req : Req) (db : DB), req.isAuth = false →
        user req db = .error notAuthenticatedErr) ∧
    (∀ (status : String) (req : Req) (db : DB), req.isAuth = false →
        updateStatus status req db = (.error notAuthenticatedErr, db)) := by
  refine ⟨?_, ?_, ?_, ?_, ?_, ?_, ?_⟩
  · intro input req db h; simp [createPost, h]
  · intro page req db h; simp [posts, h]
  · intro id req db h; simp [post, h]
  · intro id input req db h; simp [updatePost, h]
  · intro id req db h; simp [deletePost, h]
  · intro req db h; simp [user, h]
  · intro status req db h; simp [updateStatus, h]

/-- Witness for C6: every auth-gated resolver rejects a concrete
unauthenticated request and leaves the fixture store unchanged. -/
theorem auth_gate_rejects_first_witness :
    ({ isAuth := false, userId := 0 } : Req).isAuth = false ∧
    createPost { title := "t", content := "c", imageUrl := "i" }
        { isAuth := false, userId := 0 } dbFix = (.error notAuthenticatedErr, dbFix) ∧
    posts 1 { isAuth := false, userId := 0 } dbFix = .error notAuthenticatedErr ∧
    post 10 { isAuth := false, userId := 0 } dbFix = .error notAuthenticatedErr ∧
    updatePost 10 { title := "t", content := "c", imageUrl := "i" }
        { isAuth := false, userId := 0 } dbFix = (.error notAuthenticatedErr, dbFix) ∧
    deletePost 10 { isAuth := false, userId := 0 } dbFix = (.error notAuthenticatedErr, dbFix) ∧
    user { isAuth := false, userId := 0 } dbFix = .error notAuthenticatedErr ∧
    updateStatus "away" { isAuth := false, userId := 0 } dbFix =
      (.error notAuthenticatedErr, dbFix) :=
  ⟨rfl, auth_gate_rejects_first.1 _ _ _ rfl, auth_gate_rejects_first.2.1 _ _ _ rfl,
    auth_gate_rejects_first.2.2.1 _ _ _ rfl, auth_gate_rejects_first.2.2.2.1 _ _ _ _ rfl,
    auth_gate_rejects_first.2.2.2.2.1 _ _ _ rfl, auth_gate_rejects_first.2.2.2.2.2.1 _ _ rfl,
    auth_gate_rejects_first.2.2.2.2.2.2 _ _ _ rfl⟩

/-- C7 counterexample: an authenticated `updatePost` by a non-owner
with an invalid (length-2) title does not produce the 422 validation
error: the `try` body throws the 403 `Unauthorized.` ownership error
first, and the resolver's `catch` swallows it to `undefined` (`none`). -/
theorem updatePost_validation_not_first :
    updatePostTry 10 { title := "Hi", content := "Hello World", imageUrl := "x" }
        { isAuth := true, userId := 2 } dbFix =
      .error ({ message := "Unauthorized.", code := some 403 }, dbFix) ∧
    updatePost 10 { title := "Hi", content := "Hello World", imageUrl := "x" }
        { isAuth := true, userId := 2 } dbFix = (.ok none, dbFix) ∧
    (updatePost 10 { title := "Hi", content := "Hello World", imageUrl := "x" }
        { isAuth := true, userId := 2 } dbFix).1 ≠
      .error { message := "Invalid input.", code := some 422,
               data := some ["Title is invalid."] } :=
  ⟨rfl, rfl, fun hcon => Except.noConfusion hcon⟩

/-- C7 amended: in `updatePost` the existence and ownership checks run
before input validation, so an authenticated call by a non-owner yields
the 403 `Unauthorized.` error (then swallowed by the `catch`) for every
input, invalid title or content included. -/
theorem updatePost_ownership_before_validation
    (id : Nat) (input : PostInput) (req : Req) (db : DB) (p : Post)
    (hauth : req.isAuth = true) (hp : db.findPostById id = some p)
    (hown : p.creator ≠ req.userId) :
    updatePostTry id input req db =
      .error ({ message := "Unauthorized.", code := some 403 }, db) ∧
    updatePost id input req db = (.ok none, db) := by
  have hne : (p.creator != req.userId) = true := by simp [hown]
  have h1 : updatePostTry id input req db =
      .error ({ message := "Unauthorized.", code := some 403 }, db) := by
    unfold updatePostTry
    rw [hp]
    simp [hne]
  exact ⟨h1, by simp [updatePost, hauth, h1]⟩

/-- Witness for C7's amended statement: a non-owner with an invalid
title receives the swallowed 403, not a validation error. -/
theorem updatePost_ownership_before_validation_witness :
    ({ isAuth := true, userId := 2 } : Req).isAuth = true ∧
    dbFix.findPostById 10 = some post10 ∧
    post10.creator ≠ (2 : Nat) ∧
    updatePostTry 10 { title := "Hi", content := "Hi", imageUrl := "x" }
        { isAuth := true, userId := 2 } dbFix =
      .error ({ message := "Unauthorized.", code := some 403 }, dbFix) ∧
    updatePost 10 { title := "Hi", content := "Hi", imageUrl := "x" }
        { isAuth := true, userId := 2 } dbFix = (.ok none, dbFix) := by
  have h := updatePost_ownership_before_validation 10
    { title := "Hi", content := "Hi", imageUrl := "x" }
    { isAuth := true, userId := 2 } dbFix post10 rfl rfl (by decide)
  exact ⟨rfl, rfl, by decide, h.1, h.2⟩

/-- C8: `formatError` on a resolver error wrapped as `originalError`
does not render the claimed response: the returned object literal names
the undeclared variable `status`, so evaluation raises a ReferenceError
and the computed `code` (`originalError.code || 500`) is never used; an
error without `originalError` is passed through unchanged, and the
Express catch-all handler defaults the HTTP status to 500 when no
`statusCode` is attached. -/
theorem formatError_undeclared_status :
    formatError { message := "Not authenticated!", originalError := some notAuthenticatedErr } =
      .referenceError ∧
    formatError { message := "Some error", originalError := none } =
      .passthrough { message := "Some error", originalError := none } ∧
    errorHandler { statusCode := none, message := "Internal error", data := none } =
      { status := 500, message := "Internal error", data := none } :=
  ⟨rfl, rfl, rfl⟩

/-- C9 counterexample: the owner updates post 10 with valid title and
content and the supplied string `imageUrl = "undefined"`; the update
succeeds, but the stored `imageUrl` remains `"old.png"` — it is not
mutated to the supplied string value. -/
theorem updatePost_imageUrl_undefined_skipped :
    (updatePost 10 { title := "Hello World", content := "Hello World", imageUrl := "undefined" }
        { isAuth := true, userId := 1 } dbFix).1 = .ok (some post10updated) ∧
    (updatePost 10 { title := "Hello World", content := "Hello World", imageUrl := "undefined" }
        { isAuth := true, userId := 1 } dbFix).2.findPostById 10 = some post10updated ∧
    post10updated.imageUrl = "old.png" ∧
    ("old.png" : String) ≠ "undefined" :=
  ⟨rfl, rfl, rfl, by decide⟩

/-- Replacing the first document found under an id (by one carrying the
same id) is visible to a subsequent lookup under that id. -/
lemma find?_id_map_replace {id : Nat} {p p' : Post} :
    ∀ (l : List Post), l.find? (fun q => q._id == id) = some p → p'._id = p._id →
      (l.map (fun q => if q._id == p'._id then p' else q)).find? (fun q => q._id == id) =
        some p' := by
  intro l
  induction l with
  | nil => intro h _; simp at h
  | cons a l ih =>
      intro hfind hid
      by_cases ha : (a._id == id) = true
      · have hcons := @List.find?_cons_of_pos Post (fun q => q._id == id) a l ha
        rw [hcons] at hfind
        obtain rfl : a = p := Option.some.inj hfind
        have h1 : (a._id == p'._id) = true := by simp [hid]
        have h2 : (p'._id == id) = true := by rw [hid]; exact ha
        simp only [List.map_cons]
        rw [if_pos h1]
        exact @List.find?_cons_of_pos Post (fun q => q._id == id) p' _ h2
      · have hcons := @List.find?_cons_of_neg Post (fun q => q._id == id) a l ha
        rw [hcons] at hfind
        have hpid : (p._id == id) = true := @List.find?_some Post (fun q => q._id == id) p l hfind
        have hne : ¬ (a._id == p'._id) = true := by
          intro hcon
          apply ha
          have hpeq : p._id = id := by simpa using hpid
          rw [hid, hpeq] at hcon
          exact hcon
        simp only [List.map_cons]
        rw [if_neg hne]
        have hcons2 := @List.find?_cons_of_neg Post (fun q => q._id == id) a
          (List.map (fun q => if q._id == p'._id then p' else q) l) ha
        rw [hcons2]
        exact ih hfind hid

/-- C9 amended: a successful owner `updatePost` stores the supplied
`imageUrl` whenever it is not the literal string `"undefined"`; when
the supplied value is `"undefined"`, the stored `imageUrl` is left
unchanged (title, content and `updatedAt` are still mutated). -/
theorem updatePost_stores_imageUrl_unless_undefined
    (id : Nat) (input : PostInput) (req : Req) (db : DB) (p : Post)
    (hauth : req.isAuth = true) (hp : db.findPostById id = some p)
    (hown : p.creator = req.userId) (hval : postInputErrors input = []) :
    ∃ p' : Post,
      updatePost id input req db = (.ok (some p'), db.savePost p') ∧
      (db.savePost p').findPostById id = some p' ∧
      p'.title = input.title ∧ p'.content = input.content ∧
      p'.imageUrl = (if input.imageUrl = "undefined" then p.imageUrl else input.imageUrl) := by
  have hno : (p.creator != req.userId) = false := by simp [hown]
  refine ⟨{ p with
      title := input.title,
      content := input.content,
      imageUrl := (if input.imageUrl != "undefined" then input.imageUrl else p.imageUrl),
      updatedAt := db.time }, ?_, ?_, rfl, rfl, ?_⟩
  · have h1 : updatePostTry id input req db =
        .ok ({ p with
          title := input.title,
          content := input.content,
          imageUrl := (if input.imageUrl != "undefined" then input.imageUrl else p.imageUrl),
          updatedAt := db.time }, db.savePost { p with
          title := input.title,
          content := input.content,
          imageUrl := (if input.imageUrl != "undefined" then input.imageUrl else p.imageUrl),
          updatedAt := db.time }) := by
      unfold updatePostTry
      rw [hp]
      simp [hno, hval]
    simp [updatePost, hauth, h1]
  · exact find?_id_map_replace db.posts hp rfl
  · by_cases h : input.imageUrl = "undefined" <;> simp [h]

/-- Witness for C9's amended statement: the owner updates post 10 with
a concrete non-`"undefined"` image path. -/
theorem updatePost_stores_imageUrl_witness :
    ({ isAuth := true, userId := 1 } : Req).isAuth = true ∧
    dbFix.findPostById 10 = some post10 ∧
    post10.creator = (1 : Nat) ∧
    postInputErrors { title := "Hello World", content := "Hello World", imageUrl := "new.png" } = [] ∧
    ∃ p' : Post,
      updatePost 10 { title := "Hello World", content := "Hello World", imageUrl := "new.png" }
          { isAuth := true, userId := 1 } dbFix = (.ok (some p'), dbFix.savePost p') ∧
      (dbFix.savePost p').findPostById 10 = some p' ∧
      p'.title = "Hello World" ∧ p'.content = "Hello World" ∧
      p'.imageUrl = (if ("new.png" : String) = "undefined" then post10.imageUrl else "new.png") :=
  ⟨rfl, rfl, rfl, rfl, updatePost_stores_imageUrl_unless_undefined 10
    { title := "Hello World", content := "Hello World", imageUrl := "new.png" }
    { isAuth := true, userId := 1 } dbFix post10 rfl rfl rfl rfl⟩

/-- C10: a successful `createUser`, `user` or `updateStatus` call
spreads the stored document into the response, so the returned record
carries the stored hashed password. -/
theorem password_hash_in_responses :
    (∀ (input : UserInput) (db : DB),
        createUserErrors input = [] →
        db.findUserByEmail input.email = none →
        ∃ (u' : User) (db' : DB),
          createUser input db = (.ok (some u'), db') ∧
          u'.password = bcryptHash input.password) ∧
    (∀ (req : Req) (db : DB) (u : User),
        req.isAuth = true → db.findUserById req.userId = some u →
        ∃ u' : User,
          user req db = .ok (some u') ∧ u'.password = u.password) ∧
    (∀ (status : String) (req : Req) (db : DB) (u : User),
        req.isAuth = true → db.findUserById req.userId = some u →
        ∃ (u' : User) (db' : DB),
          updateStatus status req db = (.ok (some u'), db') ∧
          u'.password = u.password) := by
  refine ⟨?_, ?_, ?_⟩
  · intro input db hval hnone
    refine ⟨⟨db.nextId, input.email, input.name, bcryptHash input.password, "", []⟩,
      db.insertUser ⟨db.nextId, input.email, input.name, bcryptHash input.password, "", []⟩,
      ?_, rfl⟩
    have htry : createUserTry input db =
        .ok (⟨db.nextId, input.email, input.name, bcryptHash input.password, "", []⟩,
          db.insertUser ⟨db.nextId, input.email, input.name, bcryptHash input.password, "", []⟩) := by
      unfold createUserTry
      rw [hnone]
    simp [createUser, hval, htry]
  · intro req db u hauth hu
    have htry : userTry req db = .ok u := by
      unfold userTry
      rw [hu]
    exact ⟨u, by simp [user, hauth, htry], rfl⟩
  · intro status req db u hauth hu
    have htry : updateStatusTry status req db =
        .ok ({ u with status := status }, db.saveUser { u with status := status }) := by
      unfold updateStatusTry
      rw [hu]
    exact ⟨{ u with status := status }, db.saveUser { u with status := status },
      by simp [updateStatus, hauth, htry], rfl⟩

/-- Witness for C10 on the fixture store: a fresh signup, the current
user's profile, and a status update each expose the stored hash. -/
theorem password_hash_in_responses_witness :
    createUserErrors { email := "e@f.com", name := "Eve", password := "longpass" } = [] ∧
    dbFix.findUserByEmail "e@f.com" = none ∧
    (∃ (u' : User) (db' : DB),
      createUser { email := "e@f.com", name := "Eve", password := "longpass" } dbFix =
        (.ok (some u'), db') ∧ u'.password = bcryptHash "longpass") ∧
    ({ isAuth := true, userId := 1 } : Req).isAuth = true ∧
    dbFix.findUserById 1 = some alice ∧
    (∃ u' : User, user { isAuth := true, userId := 1 } dbFix = .ok (some u') ∧
      u'.password = alice.password) ∧
    ∃ (u' : User) (db' : DB),
      updateStatus "away" { isAuth := true, userId := 2 } dbFix =
        (.ok (some u'), db') ∧ u'.password = bob.password :=
  ⟨rfl, rfl, password_hash_in_responses.1 _ dbFix rfl rfl, rfl, rfl,
    password_hash_in_responses.2.1 { isAuth := true, userId := 1 } dbFix alice rfl rfl,
    password_hash_in_responses.2.2 "away" { isAuth := true, userId := 2 } dbFix bob rfl rfl⟩
